import Mathlib

/-!
Verification of the LiDRoSIS statistical-analysis pipeline
(`StatLysis.py/AnalysisProgram.py`) against its natural-language
specification.

The source functions are shallowly embedded.  Conventions used throughout:

* Python strings are `String`, except in the filename parser where `List Char`
  is used so that prefix/segment arguments go through by list induction.
* A pandas numeric column is `List (Option ℚ)`: `none` models a missing value
  (`NaN`).  Arithmetic on floats is embedded as exact rational arithmetic;
  comparisons against `NaN` are `False`, matching IEEE semantics, and an
  operation that produces `NaN` (0/0 from a zero standard deviation or a
  zero min-max range) produces `none` explicitly.
* `|z| < t` for `z = (x - mean)/sqrt(var)` is expressed without square roots
  as `(x - mean)^2 < t^2 * var` (equivalent for `var > 0`, `t ≥ 0`); the
  degenerate `var = 0` case, where scipy yields `NaN` z-scores, is modelled
  by an explicit `0 < var` conjunct.
-/

namespace StatLysis

/-! ### Loader: `parse_metadata_from_filename` (AnalysisProgram.py lines 26-36) -/

/-- Python `str.split(sep)` for a one-character separator: splits at every
occurrence and keeps empty segments, so the result is never empty
(`"".split('_') == ['']`). -/
def pySplit (sep : Char) : List Char → List (List Char)
  | [] => [[]]
  | c :: rest =>
    let r := pySplit sep rest
    if c = sep then [] :: r else (c :: r.headI) :: r.tail

/-- Index of the last `'.'` in a filename, if any. -/
def lastDotIdx (s : List Char) : Option Nat :=
  match s.reverse.findIdx? (fun c => c = '.') with
  | none => none
  | some j => some (s.length - 1 - j)

/-- `os.path.splitext(p)[0]` for a bare filename (no directory separators):
cut at the last `'.'` provided some non-dot character precedes it, otherwise
return the name unchanged (so `".bashrc"` has no extension). -/
def splitextRoot (s : List Char) : List Char :=
  match lastDotIdx s with
  | none => s
  | some i => if (s.take i).any (fun c => c != '.') then s.take i else s

/-- The metadata dictionary returned by `parse_metadata_from_filename`. -/
structure Metadata where
  cellLine : List Char
  radiation : List Char
  NP : List Char
  dose : List Char
deriving DecidableEq, Repr

/-- Python whitespace characters recognised by `str.strip()`. -/
def isPySpace (c : Char) : Bool :=
  c = ' ' || c = '\t' || c = '\n' || c = '\r' || c = '\x0b' || c = '\x0c'

/-- Python `str.strip()`. -/
def pyStrip (s : List Char) : List Char :=
  ((s.dropWhile isPySpace).reverse.dropWhile isPySpace).reverse

/-- Python `str.replace("Gy", "")`: removes every (left-to-right,
non-overlapping) occurrence of `"Gy"`. -/
def removeGy : List Char → List Char
  | 'G' :: 'y' :: rest => removeGy rest
  | c :: rest => c :: removeGy rest
  | [] => []

/-- The `'Unknown'` sentinel. -/
def unknownField : List Char := "Unknown".toList

/-- `parse_metadata_from_filename` (lines 26-36): split the extension-less
filename on `'_'`; fields are segments 1-4 with `"Gy"` removed and whitespace
stripped from the dose; an `IndexError` (fewer than 5 segments) yields all
four fields `'Unknown'`. -/
def parse_metadata_from_filename (filename : List Char) : Metadata :=
  let parts := pySplit '_' (splitextRoot filename)
  if h : parts.length < 5 then
    ⟨unknownField, unknownField, unknownField, unknownField⟩
  else
    { cellLine := parts.get ⟨1, by omega⟩
      radiation := parts.get ⟨2, by omega⟩
      NP := parts.get ⟨3, by omega⟩
      dose := pyStrip (removeGy (parts.get ⟨4, by omega⟩)) }

/-! ### Preprocessor: `remove_outliers`, `apply_normalization` (lines 67-78) -/

/-- The non-missing values of a column (missing values are omitted, matching
`nan_policy='omit'` / pandas `skipna`). -/
def colVals (col : List (Option ℚ)) : List ℚ := col.reduceOption

/-- Mean of the non-missing values of a column. -/
def colMean (col : List (Option ℚ)) : ℚ :=
  (colVals col).sum / (colVals col).length

/-- Population variance (`ddof = 0`, the `scipy.stats.zscore` default) of the
non-missing values of a column. -/
def colVar (col : List (Option ℚ)) : ℚ :=
  ((colVals col).map (fun x => (x - colMean col) ^ 2)).sum / (colVals col).length

/-- The squared z-score of a value against a column, `((x - mean)/σ)^2`
written without the square root. -/
def zsq (col : List (Option ℚ)) (a : ℚ) : ℚ :=
  (a - colMean col) ^ 2 / colVar col

/-- The row filter `z < z_thresh` of line 69, where
`z = np.abs(stats.zscore(col, nan_policy='omit'))`.  A missing value has a
`NaN` z-score, and a zero variance makes every z-score `NaN` (`0/0`); any
comparison against `NaN` is false.  For `var > 0` and `t ≥ 0`,
`|z| < t ↔ (x - mean)^2 < t^2 * var`. -/
def zLtThresh (mean varv t : ℚ) : Option ℚ → Bool
  | none => false
  | some a => decide (0 < varv) && decide (0 ≤ t) && decide ((a - mean) ^ 2 < t ^ 2 * varv)

/-- The counting test `z >= z_thresh` of line 69, under the same `NaN`
conventions; for `var > 0`, `|z| ≥ t` holds iff `t ≤ 0` or
`t^2 * var ≤ (x - mean)^2`. -/
def zGeThresh (mean varv t : ℚ) : Option ℚ → Bool
  | none => false
  | some a => decide (0 < varv) && (decide (t ≤ 0) || decide (t ^ 2 * varv ≤ (a - mean) ^ 2))

/-- `remove_outliers` (lines 67-69).  A row is represented by its response
value (the filter inspects only that column): returns the rows passing
`z < z_thresh` together with `int((z >= z_thresh).sum())`. -/
def remove_outliers (col : List (Option ℚ)) (z_thresh : ℚ) : List (Option ℚ) × Nat :=
  let m := colMean col
  let v := colVar col
  (col.filter (zLtThresh m v z_thresh), (col.filter (zGeThresh m v z_thresh)).length)

/-- Number of non-missing rows that the `z < z_thresh` filter drops. -/
def droppedNonMissing (col : List (Option ℚ)) (t : ℚ) : Nat :=
  col.countP (fun o => o.isSome && !zLtThresh (colMean col) (colVar col) t o)

/-- Minimum of a rational list (`none` on the empty list, like the `NaN` that
pandas returns for an all-missing column). -/
def listMin : List ℚ → Option ℚ
  | [] => none
  | x :: xs =>
    match listMin xs with
    | none => some x
    | some m => some (min x m)

/-- Maximum of a rational list (`none` on the empty list). -/
def listMax : List ℚ → Option ℚ
  | [] => none
  | x :: xs =>
    match listMax xs with
    | none => some x
    | some m => some (max x m)

/-- `df[response_var].min()` — pandas skips missing values. -/
def colMin (col : List (Option ℚ)) : Option ℚ := listMin (colVals col)

/-- `df[response_var].max()`. -/
def colMax (col : List (Option ℚ)) : Option ℚ := listMax (colVals col)

/-- One entry of the min-max rescaling `(x - min) / (max - min)` (line 77).
When `max - min = 0` the float division is `0/0 = NaN`, modelled as `none`. -/
def minmaxScale (m M x : ℚ) : Option ℚ :=
  if M - m = 0 then none else some ((x - m) / (M - m))

/-- The `method == 'minmax'` branch of `apply_normalization` (lines 76-77):
rewrites the response column in place.  (The `log1p` and `zscore` branches
involve transcendental/irrational functions and are not needed by any claim.)
Missing entries stay missing (`NaN` propagates through the arithmetic); on an
all-missing column the min and max are themselves missing and every entry
remains missing, i.e. the column is unchanged. -/
def apply_normalization_minmax (col : List (Option ℚ)) : List (Option ℚ) :=
  match colMin col, colMax col with
  | some m, some M => col.map (fun o => o.bind (minmaxScale m M))
  | _, _ => col

/-! ### Statistical engine: `perform_anova` eta-squared (lines 93-98),
`run_tukey` (lines 100-104) -/

/-- The `sum_sq` column of the type-2 `anova_lm` table: one row per model
term followed by the `Residual` row, whose sum of squares is `model.ssr`. -/
def anova_sum_sq_rows (termSS : List ℚ) (ssr : ℚ) : List ℚ := termSS ++ [ssr]

/-- Line 97: `anova['eta_sq'] = anova['sum_sq'] / (anova['sum_sq'].sum() + model.ssr)`.
Note that the column sum ranges over the whole table, Residual row included. -/
def anova_eta_sq (termSS : List ℚ) (ssr : ℚ) : List ℚ :=
  let rows := anova_sum_sq_rows termSS ssr
  rows.map (fun s => s / (rows.sum + ssr))

/-- `df[factor].nunique()`: number of distinct values of a (string-typed)
factor column. -/
def nunique (col : List String) : Nat := col.dedup.length

/-- Result of `run_tukey`: the skip branch returns a bare string, the other
branch a (summary text, results table) pair. -/
inductive TukeyResult where
  | skipped (msg : String)
  | results (summary : String) (table : List (List String))
deriving DecidableEq, Repr

/-- The sentinel string of line 102. -/
def tukeySkipMsg (factor : String) : String :=
  "Tukey HSD skipped: only one group in '" ++ factor ++ "'"

/-- `run_tukey` (lines 100-104).  `pairwise_tukeyhsd` itself performs
irrational statistical arithmetic and is abstracted as the parameter `hsd`
producing the summary text and data table; the branch structure is the
code's. -/
def run_tukey (hsd : List (Option ℚ) → List String → String × List (List String))
    (resp : List (Option ℚ)) (factorCol : List String) (factorName : String) :
    TukeyResult :=
  if nunique factorCol < 2 then .skipped (tukeySkipMsg factorName)
  else .results (hsd resp factorCol).1 (hsd resp factorCol).2

/-- Python tuple unpacking `result, data = v` (line 359): a pair unpacks into
its components; a string is iterated character by character and unpacks only
if it has exactly two characters, otherwise a `ValueError` is raised. -/
def unpack2 (r : TukeyResult) :
    Except String ((String × List (List String)) ⊕ (Char × Char)) :=
  match r with
  | .results s t => .ok (.inl (s, t))
  | .skipped msg =>
    match msg.data with
    | [a, b] => .ok (.inr (a, b))
    | _ => .error "ValueError: unpack"

/-! ### Regression explorer: `plot_regression_models` (lines 151-208) -/

/-- Number of rows with `y > 0` (`df[df[y] > 0]`, lines 172 and 188). -/
def posYCount (rows : List (ℚ × ℚ)) : Nat :=
  (rows.filter (fun r => decide (0 < r.2))).length

/-- Number of rows with `x > 0` (`df[df[x] > 0]`, line 180). -/
def posXCount (rows : List (ℚ × ℚ)) : Nat :=
  (rows.filter (fun r => decide (0 < r.1))).length

/-- The key set of the `models` dictionary built by `plot_regression_models`
(lines 155-193), in insertion order.  `'Linear'`, `'Poly2'`, `'Poly3'` are
unconditional `np.polyfit` fits.  Each of the remaining three entries is added
inside a `try` and omitted when its fit raises:
* `'Exponential'`: `curve_fit` on the rows with `y > 0`; it raises whenever
  there are fewer data points than the 2 parameters, and may additionally
  fail to converge (the fit is genuinely nonlinear), abstracted by the
  `expConverges` flag;
* `'Logarithmic'`: `curve_fit` of `a + b*ln(x)` on the rows with `x > 0`
  (the restriction is on `x`, not on `y`); it raises with fewer than
  2 such rows and otherwise converges — the model is linear in both
  parameters;
* `'Log-Linear'`: `np.polyfit(x, log y, 1)` on the rows with `y > 0`; the
  linear-algebra fit raises only on an empty vector. -/
def plot_regression_models_keys (expConverges : Bool) (rows : List (ℚ × ℚ)) :
    List String :=
  ["Linear", "Poly2", "Poly3"]
    ++ (if 2 ≤ posYCount rows ∧ expConverges = true then ["Exponential"] else [])
    ++ (if 2 ≤ posXCount rows then ["Logarithmic"] else [])
    ++ (if 1 ≤ posYCount rows then ["Log-Linear"] else [])

/-! ### Interpreter: `generate_conclusion` (lines 123-147) -/

/-- Round-half-even (the rounding of Python's fixed-point formatting) of a
rational to an integer. -/
def roundHalfEven (q : ℚ) : ℤ :=
  let fl := ⌊q⌋
  let fr := q - fl
  if fr < 1 / 2 then fl
  else if 1 / 2 < fr then fl + 1
  else if fl % 2 = 0 then fl else fl + 1

/-- Python `f"{q:.d f}"` fixed-point formatting, modelled on exact rationals
(the binary double rounds to the same string at every value a claim
evaluates). -/
def formatFixed (d : Nat) (q : ℚ) : String :=
  let n : ℤ := roundHalfEven (|q| * (10 : ℚ) ^ d)
  let ip := n.toNat / 10 ^ d
  let fp := n.toNat % 10 ^ d
  let fpRaw := Nat.toDigits 10 fp
  let fpStr := String.mk (List.replicate (d - fpRaw.length) '0' ++ fpRaw)
  let core := if d = 0 then String.mk (Nat.toDigits 10 ip)
    else String.mk (Nat.toDigits 10 ip) ++ "." ++ fpStr
  if q < 0 ∧ n ≠ 0 then "-" ++ core else core

/-- The pieces of a `statsmodels` fitted OLS model that
`generate_conclusion` reads: `model.rsquared`, `model.params` and
`model.pvalues` (two series sharing the same term index). -/
structure OlsModel where
  rsquared : ℚ
  params : List (String × ℚ)
  pvalues : List (String × ℚ)
deriving DecidableEq, Repr

/-- `series.get(key, default)` (pandas `.get` used on lines 130 and 132). -/
def seriesGet (kvs : List (String × ℚ)) (key : String) (dflt : ℚ) : ℚ :=
  (kvs.lookup key).getD dflt

/-- Python `pat in term` substring test. -/
def containsSub (pat s : String) : Bool := (s.splitOn pat).length ≠ 1

/-- Line 143: `term.split(":")[1].split("[")[0].replace("C(", "").replace(")", "")`. -/
def parseInteractionFactor (term : String) : String :=
  ((((term.splitOn ":").getD 1 "").splitOn "[").getD 0 "").replace "C(" ""
    |>.replace ")" ""

/-- Line 144: `term.split("[T.")[1].split("]")[0]` (the `[T.` indexing cannot
fail on the treatment-coded terms the `Dose_numeric:C(` filter selects). -/
def parseInteractionLevel (term : String) : String :=
  (((term.splitOn "[T.").getD 1 "").splitOn "]").getD 0 ""

/-- The sentence appended per significant interaction term (line 145). -/
def interactionSentence (term : String) : String :=
  " There is also evidence that dose effect differs for group '" ++
    parseInteractionLevel term ++ "' of factor '" ++
    parseInteractionFactor term ++ "'."

/-- `generate_conclusion` (lines 123-147).  `cat_factor` is accepted and
unused, as in the source.  Thresholds `0.2`, `0.5`, `0.05` are the exact
rationals `1/5`, `1/2`, `1/20`. -/
def generate_conclusion (model : OlsModel) (response_var : String)
    (cat_factor : String) : String :=
  let r2 := model.rsquared
  let strength := if r2 < 1 / 5 then "weak"
    else if r2 < 1 / 2 then "moderate" else "strong"
  let coef_dose := seriesGet model.params "Dose_numeric" 0
  let direction := if 0 < coef_dose then "increase"
    else if coef_dose < 0 then "decrease" else "remain constant"
  let p_value := seriesGet model.pvalues "Dose_numeric" 1
  let sig := if p_value < 1 / 20 then "significant" else "not significant"
  let conclusion :=
    "Based on an R² of " ++ formatFixed 2 r2 ++ ", there is a " ++ strength ++
      " association between '" ++ response_var ++
      "' and the dose. The coefficient suggests the response tends to " ++
      direction ++ " as the dose increases. This effect was " ++ sig ++
      " (p = " ++ formatFixed 4 p_value ++ ")."
  conclusion ++ String.join
    ((model.params.filter (fun kv =>
        containsSub "Dose_numeric:C(" kv.1 &&
          decide ((model.pvalues.lookup kv.1).getD 1 < 1 / 20))).map
      (fun kv => interactionSentence kv.1))

/-- `s = a ++ pat ++ b` for some `a`, `b`: the Python `pat in s` relation,
used to state what a generated sentence contains. -/
def containsStr (s pat : String) : Prop := ∃ a b : String, s = a ++ pat ++ b

/-! ### Orchestrator: `AnalyzerApp.run_analysis` (lines 311-420)

The GUI method is embedded as a pure function of a configuration record.
Data-dependent preprocessing (the CellLine/NP filters, `dropna`,
`create_derived_vars`, `remove_outliers`, `apply_normalization`) is abstracted
into the row count it leaves behind, since the claims about this method only
concern which phases execute; each fallible phase carries a flag saying
whether its `try` body raises.  `'Dose_numeric' in df.columns` (line 402) is
always true because line 329 creates that column unconditionally. -/

/-- One entry of the `self.log` output stream, tagged by which message of
`run_analysis` produced it (the free-text exception details are elided). -/
inductive LogEntry where
  | selectPrompt
  | derivedVarsAdded
  | removedOutliers (n : Nat)
  | tooFewDataPoints
  | normalized (method : String)
  | anovaTable
  | anovaFailed
  | tukeyResult (factor : String)
  | tukeyError (factor : String)
  | gridPlotError
  | regressionSummary
  | conclusionText
  | regressionError
  | savedIn
deriving DecidableEq, Repr

/-- The inputs `run_analysis` reads: the GUI selections plus, per fallible
phase, whether its body raises. -/
structure RunConfig where
  dfEmpty : Bool
  response : String
  factors : List String
  useDerived : Bool
  useOutliers : Bool
  outliersRemoved : Nat
  rowsAfterPrep : Nat
  normMethod : String
  anovaRaises : Bool
  tukeyPhaseRaises : String → Bool
  gridRaises : Bool
  regressionRaises : Bool

/-- The observable effects of one `run_analysis` call: the log and which
output artifacts were written. -/
structure RunOutput where
  log : List LogEntry
  wroteAnovaCsv : Bool
  tukeyCsvs : List String
  wroteGridPng : Bool
  wroteRegressionTxt : Bool
  wroteConclusionTxt : Bool
  wroteModelsPng : Bool
  wroteFilteredCsv : Bool
deriving Repr

/-- `AnalyzerApp.run_analysis` (lines 311-420), phase by phase:
input guards (lines 313-322), preprocessing logs (lines 332-343), the
`ANOVA` `try` whose `except` clause logs and **`return`s** (lines 348-354),
the per-factor Tukey loop (356-363), the plot grid `try` (366-398), the
regression/conclusion/model-plot `try` (401-417), and the final
`filtered_data.csv` write (line 419).  The regression phase is modelled with
one failure flag covering its three writes. -/
def run_analysis (cfg : RunConfig) : RunOutput :=
  if cfg.dfEmpty then
    ⟨[], false, [], false, false, false, false, false⟩
  else if cfg.response = "" ∨ cfg.factors = [] then
    ⟨[.selectPrompt], false, [], false, false, false, false, false⟩
  else
    let log0 := (if cfg.useDerived then [LogEntry.derivedVarsAdded] else [])
      ++ (if cfg.useOutliers then [LogEntry.removedOutliers cfg.outliersRemoved] else [])
    if cfg.rowsAfterPrep < 5 then
      ⟨log0 ++ [.tooFewDataPoints], false, [], false, false, false, false, false⟩
    else
      let log1 := log0 ++
        (if cfg.normMethod ≠ "None" then [LogEntry.normalized cfg.normMethod] else [])
      if cfg.anovaRaises then
        ⟨log1 ++ [.anovaFailed], false, [], false, false, false, false, false⟩
      else
        let tukeyLog := cfg.factors.map (fun f =>
          if cfg.tukeyPhaseRaises f then LogEntry.tukeyError f else .tukeyResult f)
        let gridLog := if cfg.gridRaises then [LogEntry.gridPlotError] else []
        let regLog := if cfg.regressionRaises then [LogEntry.regressionError]
          else [LogEntry.regressionSummary, .conclusionText]
        { log := log1 ++ [.anovaTable] ++ tukeyLog ++ gridLog ++ regLog ++ [.savedIn]
          wroteAnovaCsv := true
          tukeyCsvs := cfg.factors.filter (fun f => !cfg.tukeyPhaseRaises f)
          wroteGridPng := !cfg.gridRaises
          wroteRegressionTxt := !cfg.regressionRaises
          wroteConclusionTxt := !cfg.regressionRaises
          wroteModelsPng := !cfg.regressionRaises
          wroteFilteredCsv := true }

/-! ## Helper lemmas -/

theorem pySplit_ne_nil (sep : Char) (s : List Char) : pySplit sep s ≠ [] := by
  cases s with
  | nil => simp [pySplit]
  | cons c rest =>
    simp only [pySplit]
    split <;> simp

theorem pySplit_length (sep : Char) (s : List Char) :
    (pySplit sep s).length = s.count sep + 1 := by
  induction s with
  | nil => simp [pySplit]
  | cons c rest ih =>
    have hne : 1 ≤ (pySplit sep rest).length :=
      List.length_pos.mpr (pySplit_ne_nil sep rest)
    simp only [pySplit]
    split
    case isTrue h =>
      simp only [List.length_cons, List.count_cons, ih]
      simp [h]
    case isFalse h =>
      simp only [List.length_cons, List.length_tail, List.count_cons, ih]
      have : (c == sep) = false := by simp [h]
      simp [this]

theorem splitextRoot_count_le (sep : Char) (s : List Char) :
    (splitextRoot s).count sep ≤ s.count sep := by
  unfold splitextRoot
  split
  · exact le_rfl
  · split
    · exact (List.take_sublist _ s).count_le sep
    · exact le_rfl

/-- C7, universal half: a filename splitting into fewer than 5 segments parses
to the all-`'Unknown'` record. -/
theorem parse_unknown_of_short (f : List Char)
    (h : (pySplit '_' f).length < 5) :
    parse_metadata_from_filename f =
      ⟨unknownField, unknownField, unknownField, unknownField⟩ := by
  have hroot : (pySplit '_' (splitextRoot f)).length < 5 := by
    have h1 := pySplit_length '_' f
    have h2 := pySplit_length '_' (splitextRoot f)
    have h3 := splitextRoot_count_le '_' f
    omega
  unfold parse_metadata_from_filename
  simp [hroot]

/-! ## Claims -/

/-- C7: `parse_metadata_from_filename` on
`"Aggregated_A549_Xray_NDAuNP_2Gy.xlsx"` returns
`{CellLine: "A549", Radiation: "Xray", NP: "NDAuNP", Dose: "2"}`, and on any
filename splitting on `'_'` into fewer than 5 segments it returns all four
fields `"Unknown"` (the `IndexError` is caught; the function is total, so no
exception is raised). -/
theorem C7_parse_metadata (f : List Char) :
    parse_metadata_from_filename "Aggregated_A549_Xray_NDAuNP_2Gy.xlsx".toList =
      ⟨"A549".toList, "Xray".toList, "NDAuNP".toList, "2".toList⟩ ∧
    ((pySplit '_' f).length < 5 →
      parse_metadata_from_filename f =
        ⟨unknownField, unknownField, unknownField, unknownField⟩) :=
  ⟨by decide, parse_unknown_of_short f⟩

/-- C7 witness: a two-segment filename hits the `'Unknown'` branch. -/
theorem C7_parse_metadata_witness :
    (pySplit '_' "Aggregated_A549.xlsx".toList).length < 5 ∧
    parse_metadata_from_filename "Aggregated_A549.xlsx".toList =
      ⟨unknownField, unknownField, unknownField, unknownField⟩ :=
  ⟨by decide, (C7_parse_metadata "Aggregated_A549.xlsx".toList).2 (by decide)⟩

theorem countP_reduceOption {α : Type} (p : Option α → Bool) (hp : p none = false)
    (col : List (Option α)) :
    col.countP p = col.reduceOption.countP (fun a => p (some a)) := by
  induction col with
  | nil => simp
  | cons o rest ih =>
    cases o with
    | none => simp [List.countP_cons, hp, ih]
    | some a => simp [List.countP_cons, ih]

/-- C8: `remove_outliers` drops every row with a missing response value (its
`NaN` z-score fails the `z < z_thresh` keep filter), for every threshold, and
the reported count is computed over the non-missing values only (a `NaN`
z-score also fails the `z >= z_thresh` counting test). -/
theorem C8_missing_rows_removed (col : List (Option ℚ)) (t : ℚ) :
    (remove_outliers col t).1.all Option.isSome = true ∧
    (remove_outliers col t).2 =
      (colVals col).countP
        (fun a => zGeThresh (colMean col) (colVar col) t (some a)) := by
  constructor
  · rw [List.all_eq_true]
    intro o ho
    have hkeep := (List.mem_filter.mp ho).2
    cases o with
    | none => simp [zLtThresh] at hkeep
    | some a => rfl
  · show (col.filter (zGeThresh (colMean col) (colVar col) t)).length = _
    rw [← List.countP_eq_length_filter]
    exact countP_reduceOption _ rfl col

/-- C2 counterexample: on the column `[0, 1, 2, NaN]` with the default
threshold 3, `remove_outliers` drops one row (the missing one) but reports a
removed count of 0, so the reported count does not equal the number of rows
actually dropped. -/
theorem C2_counterexample :
    (remove_outliers [some 0, some 1, some 2, none] 3).1 =
      [some 0, some 1, some 2] ∧
    (remove_outliers [some 0, some 1, some 2, none] 3).2 = 0 ∧
    ([some 0, some 1, some 2, none] : List (Option ℚ)).length -
      (remove_outliers [some 0, some 1, some 2, none] 3).1.length = 1 := by
  norm_num [remove_outliers, colVar, colVals, colMean, zLtThresh, zGeThresh,
    List.filter]

/-- C2 amended: provided the response column has positive variance (so
z-scores are defined) and the threshold is nonnegative, `remove_outliers`
never removes a row whose squared z-score is strictly below the squared
threshold, and the reported count equals the number of *non-missing* rows
dropped; rows with a missing response (and, when the variance is zero, all
rows) are dropped without being counted. -/
theorem C2_remove_outliers_amended (col : List (Option ℚ)) (t : ℚ)
    (hv : 0 < colVar col) (ht : 0 ≤ t) :
    (∀ a : ℚ, some a ∈ col → zsq col a < t ^ 2 →
      some a ∈ (remove_outliers col t).1) ∧
    (remove_outliers col t).2 = droppedNonMissing col t := by
  constructor
  · intro a ha hz
    rw [zsq, div_lt_iff₀ hv] at hz
    refine List.mem_filter.mpr ⟨ha, ?_⟩
    simp [zLtThresh, hv, ht, hz]
  · show (col.filter (zGeThresh (colMean col) (colVar col) t)).length = _
    rw [← List.countP_eq_length_filter, droppedNonMissing]
    refine List.countP_congr ?_
    intro o _
    cases o with
    | none => simp [zGeThresh, zLtThresh]
    | some a =>
      by_cases hd : (a - colMean col) ^ 2 < t ^ 2 * colVar col
      · have ht' : 0 < t := by
          rcases eq_or_lt_of_le ht with h0 | h0
          · rw [← h0] at hd
            norm_num at hd
            exact absurd hd (not_lt.mpr (sq_nonneg _))
          · exact h0
        simp [zGeThresh, zLtThresh, hv, ht, hd, not_le.mpr hd, not_le.mpr ht']
      · simp [zGeThresh, zLtThresh, hv, ht, hd, not_lt.mp hd]

/-- C2 witness: the amended statement instantiated on `[0, 1, 2, NaN]` with
threshold 3. -/
theorem C2_remove_outliers_witness :
    0 < colVar [some 0, some 1, some 2, none] ∧
    (remove_outliers [some 0, some 1, some 2, none] 3).2 =
      droppedNonMissing [some 0, some 1, some 2, none] 3 :=
  ⟨by norm_num [colVar, colVals, colMean],
   (C2_remove_outliers_amended [some 0, some 1, some 2, none] 3
      (by norm_num [colVar, colVals, colMean]) (by norm_num)).2⟩

theorem run_tukey_eq_skipped
    (hsd : List (Option ℚ) → List String → String × List (List String))
    (resp : List (Option ℚ)) (factorCol : List String) (factorName : String)
    (h : nunique factorCol < 2) :
    run_tukey hsd resp factorCol factorName =
      .skipped (tukeySkipMsg factorName) := by
  simp [run_tukey, h]

/-- C5: on a factor column with fewer than 2 distinct values, `run_tukey`
returns the skip sentinel in place of the (summary text, comparison table)
results; the embedded function is total, so no exception is raised. -/
theorem C5_run_tukey_skip
    (hsd : List (Option ℚ) → List String → String × List (List String))
    (resp : List (Option ℚ)) (factorCol : List String) (factorName : String)
    (h : nunique factorCol < 2) :
    run_tukey hsd resp factorCol factorName =
      .skipped (tukeySkipMsg factorName) :=
  run_tukey_eq_skipped hsd resp factorCol factorName h

/-- C5 witness: a single-level factor column hits the skip branch. -/
theorem C5_run_tukey_skip_witness :
    nunique ["2", "2", "2"] < 2 ∧
    run_tukey (fun _ _ => ("", [])) [some 1, some 2, some 3] ["2", "2", "2"]
        "Dose" = .skipped (tukeySkipMsg "Dose") :=
  ⟨by decide, C5_run_tukey_skip _ _ _ _ (by decide)⟩

theorem tukeySkipMsg_length (factor : String) :
    (tukeySkipMsg factor).length = 38 + factor.length + 1 := by
  rw [tukeySkipMsg, String.length_append, String.length_append]
  have h1 : ("Tukey HSD skipped: only one group in '" : String).length = 38 := by
    decide
  have h2 : ("'" : String).length = 1 := by decide
  omega

theorem unpack2_skipped_of_length_ne_two (msg : String) (h : msg.length ≠ 2) :
    unpack2 (.skipped msg) = .error "ValueError: unpack" := by
  have hd : msg.data.length ≠ 2 := h
  rw [unpack2]
  rcases msg with ⟨l⟩
  match l with
  | [] => rfl
  | [a] => rfl
  | [a, b] => exact absurd rfl hd
  | a :: b :: c :: rest => rfl

/-- C9: `run_tukey` returns values of two different shapes — a
(summary, table) pair when the factor has at least 2 distinct values, and a
bare string otherwise — so the caller's unpacking `result, data = ...`
succeeds on the pair but raises a `ValueError` on the skip sentinel (a string
of more than two characters). -/
theorem C9_tukey_unpack_shapes
    (hsd : List (Option ℚ) → List String → String × List (List String))
    (resp : List (Option ℚ)) (factorCol : List String) (factorName : String) :
    (nunique factorCol < 2 →
      unpack2 (run_tukey hsd resp factorCol factorName) =
        .error "ValueError: unpack") ∧
    (2 ≤ nunique factorCol →
      unpack2 (run_tukey hsd resp factorCol factorName) =
        .ok (.inl ((hsd resp factorCol).1, (hsd resp factorCol).2))) := by
  constructor
  · intro h
    rw [run_tukey_eq_skipped hsd resp factorCol factorName h]
    refine unpack2_skipped_of_length_ne_two _ ?_
    rw [tukeySkipMsg_length]
    omega
  · intro h
    rw [run_tukey, if_neg (by omega)]
    rfl

/-- C9 witness: both shapes observed on concrete inputs. -/
theorem C9_tukey_unpack_shapes_witness :
    nunique ["2"] < 2 ∧
    unpack2 (run_tukey (fun _ _ => ("", [])) [some 1] ["2"] "Dose") =
      .error "ValueError: unpack" :=
  ⟨by decide,
   (C9_tukey_unpack_shapes (fun _ _ => ("", [])) [some 1] ["2"] "Dose").1
     (by decide)⟩

theorem listMin_eq_none (l : List ℚ) (h : listMin l = none) : l = [] := by
  cases l with
  | nil => rfl
  | cons y ys =>
    rw [listMin] at h
    cases h2 : listMin ys <;> simp [h2] at h

theorem listMin_le (l : List ℚ) (m : ℚ) (hm : listMin l = some m) :
    ∀ x ∈ l, m ≤ x := by
  induction l generalizing m with
  | nil => simp [listMin] at hm
  | cons y ys ih =>
    intro x hx
    rw [List.mem_cons] at hx
    rw [listMin] at hm
    cases h : listMin ys with
    | none =>
      rw [h] at hm
      rcases hx with rfl | hx
      · exact le_of_eq (Option.some.inj hm).symm
      · rw [listMin_eq_none ys h] at hx
        simp at hx
    | some m' =>
      rw [h] at hm
      have hmm : m = min y m' := (Option.some.inj hm).symm
      rcases hx with rfl | hx
      · rw [hmm]; exact min_le_left _ _
      · rw [hmm]; exact le_trans (min_le_right _ _) (ih m' h x hx)

theorem listMax_eq_none (l : List ℚ) (h : listMax l = none) : l = [] := by
  cases l with
  | nil => rfl
  | cons y ys =>
    rw [listMax] at h
    cases h2 : listMax ys <;> simp [h2] at h

theorem le_listMax (l : List ℚ) (M : ℚ) (hM : listMax l = some M) :
    ∀ x ∈ l, x ≤ M := by
  induction l generalizing M with
  | nil => simp [listMax] at hM
  | cons y ys ih =>
    intro x hx
    rw [List.mem_cons] at hx
    rw [listMax] at hM
    cases h : listMax ys with
    | none =>
      rw [h] at hM
      rcases hx with rfl | hx
      · exact le_of_eq (Option.some.inj hM)
      · rw [listMax_eq_none ys h] at hx
        simp at hx
    | some M' =>
      rw [h] at hM
      have hMM : M = max y M' := (Option.some.inj hM).symm
      rcases hx with rfl | hx
      · rw [hMM]; exact le_max_left _ _
      · rw [hMM]; exact le_trans (ih M' h x hx) (le_max_right _ _)

/-- C6 counterexample: on the constant non-missing column `[5, 5]` the
min-max denominator is zero, every entry becomes `NaN` (`0/0`), and in
particular the entry equal to the column minimum does not map to 0 and no
entry lands in `[0, 1]`. -/
theorem C6_counterexample :
    apply_normalization_minmax [some 5, some 5] = [none, none] ∧
    (apply_normalization_minmax [some 5, some 5]).head? ≠ some (some 0) := by
  have h : apply_normalization_minmax [some 5, some 5] = [none, none] := by
    norm_num [apply_normalization_minmax, colMin, colMax, colVals, listMin,
      listMax, minmaxScale]
  exact ⟨h, by rw [h]; simp⟩

/-- C6 amended: provided the column's non-missing minimum `m` and maximum `M`
are distinct (`m < M`), min-max normalization maps every originally
non-missing entry `x` to `(x - m)/(M - m)`, which lies in `[0, 1]`, with
entries equal to the minimum mapping to 0 and entries equal to the maximum
mapping to 1; on a column whose non-missing values are all equal the
denominator is zero and every entry becomes missing (`NaN`) instead. -/
theorem C6_minmax_amended (col : List (Option ℚ)) (m M : ℚ)
    (hm : colMin col = some m) (hM : colMax col = some M) (hlt : m < M) :
    (apply_normalization_minmax col).length = col.length ∧
    ∀ i : Nat, ∀ x : ℚ, col.get? i = some (some x) →
      (apply_normalization_minmax col).get? i =
          some (some ((x - m) / (M - m))) ∧
        0 ≤ (x - m) / (M - m) ∧ (x - m) / (M - m) ≤ 1 ∧
        (x = m → (x - m) / (M - m) = 0) ∧
        (x = M → (x - m) / (M - m) = 1) := by
  have hscale : apply_normalization_minmax col =
      col.map (fun o => o.bind (minmaxScale m M)) := by
    rw [apply_normalization_minmax, hm, hM]
  have hne : M - m ≠ 0 := sub_ne_zero.mpr (ne_of_gt hlt)
  constructor
  · rw [hscale, List.length_map]
  · intro i x hx
    have hmem : (some x : Option ℚ) ∈ col := List.get?_mem hx
    have hxv : x ∈ colVals col := List.reduceOption_mem_iff.mpr hmem
    have hmx : m ≤ x := listMin_le (colVals col) m hm x hxv
    have hxM : x ≤ M := le_listMax (colVals col) M hM x hxv
    refine ⟨?_, ?_, ?_, ?_, ?_⟩
    · rw [hscale, List.get?_map, hx]
      simp [minmaxScale, hne]
    · exact div_nonneg (by linarith) (by linarith)
    · rw [div_le_one (by linarith)]
      linarith
    · intro hxm; rw [hxm]; simp
    · intro hxM'; rw [hxM']; exact div_self hne

/-- C6 witness: the amended statement instantiated on `[0, NaN, 2, 1]`. -/
theorem C6_minmax_amended_witness :
    colMin [some 0, none, some 2, some 1] = some 0 ∧
    colMax [some 0, none, some 2, some 1] = some 2 ∧
    (0 : ℚ) < 2 ∧
    (apply_normalization_minmax [some 0, none, some 2, some 1]).length =
      ([some 0, none, some 2, some 1] : List (Option ℚ)).length :=
  ⟨by norm_num [colMin, colVals, listMin],
   by norm_num [colMax, colVals, listMax],
   by norm_num,
   (C6_minmax_amended [some 0, none, some 2, some 1] 0 2
      (by norm_num [colMin, colVals, listMin])
      (by norm_num [colMax, colVals, listMax]) (by norm_num)).1⟩

theorem sum_map_div (l : List ℚ) (d : ℚ) :
    (l.map (fun s => s / d)).sum = l.sum / d := by
  induction l with
  | nil => simp
  | cons x xs ih => simp [ih, add_div]

/-- C4 counterexample: with a single model term of sum-of-squares 4 and
residual sum-of-squares 4, the code's eta-squared for the term is
`4 / ((4 + 4) + 4) = 1/3`, not the claimed `4 / (4 + 4) = 1/2`, and the
eta-squared values over all rows (term plus residual share) sum to `2/3`,
not 1. -/
theorem C4_counterexample :
    anova_eta_sq [4] 4 = [1/3, 1/3] ∧
    (anova_eta_sq [4] 4).sum ≠ 1 ∧
    ((1 : ℚ)/3 ≠ 4 / (([4] : List ℚ).sum + 4)) := by
  norm_num [anova_eta_sq, anova_sum_sq_rows]

/-- C4 amended: the eta-squared attached to each row of the ANOVA table
equals that row's sum of squares divided by (the sum of `sum_sq` over *all*
table rows — the Residual row included — plus the residual sum of squares),
i.e. `SS_i / (T + 2R)` where `T` is the total over the non-residual terms and
`R` the residual; consequently the eta-squared values over all rows sum to
`(T + R) / (T + 2R)`, which is strictly less than 1 whenever `R > 0`. -/
theorem C4_eta_sq_amended (termSS : List ℚ) (ssr : ℚ)
    (hT : 0 ≤ termSS.sum) (hR : 0 < ssr) :
    (anova_eta_sq termSS ssr).sum =
      (termSS.sum + ssr) / (termSS.sum + 2 * ssr) ∧
    (anova_eta_sq termSS ssr).sum < 1 := by
  have hrows : (anova_sum_sq_rows termSS ssr).sum = termSS.sum + ssr := by
    simp [anova_sum_sq_rows]
  have hsum : (anova_eta_sq termSS ssr).sum =
      (termSS.sum + ssr) / (termSS.sum + 2 * ssr) := by
    rw [anova_eta_sq, sum_map_div, hrows]
    ring_nf
  refine ⟨hsum, ?_⟩
  rw [hsum, div_lt_one (by linarith)]
  linarith

/-- C4 witness: the amended statement instantiated at term sum-of-squares 4
and residual 4, where the eta values sum to `2/3 < 1`. -/
theorem C4_eta_sq_amended_witness :
    (0 : ℚ) ≤ ([4] : List ℚ).sum ∧ (0 : ℚ) < 4 ∧
    (anova_eta_sq [4] 4).sum < 1 :=
  ⟨by norm_num, by norm_num,
   (C4_eta_sq_amended [4] 4 (by norm_num) (by norm_num)).2⟩

/-- Four rows with distinct positive x and all-negative y: the polynomial
fits succeed and no row has positive y. -/
def noPosYRows : List (ℚ × ℚ) := [(1, -1), (2, -2), (3, -3), (4, -4)]

/-- C3 counterexample: on a 4-row dataset with distinct x values and no
positive y-value, the `models` mapping *does* contain `"Logarithmic"` (its
fit is restricted to rows with `x > 0`, not `y > 0`) and contains no
`"Quadratic"` or `"Cubic"` entry (the polynomial fits are keyed `"Poly2"`
and `"Poly3"`), contradicting the claim. -/
theorem C3_counterexample :
    noPosYRows.all (fun r => decide (r.2 ≤ 0)) = true ∧
    "Logarithmic" ∈ plot_regression_models_keys true noPosYRows ∧
    "Quadratic" ∉ plot_regression_models_keys true noPosYRows ∧
    "Cubic" ∉ plot_regression_models_keys true noPosYRows := by
  have hkeys : plot_regression_models_keys true noPosYRows =
      ["Linear", "Poly2", "Poly3", "Logarithmic"] := by
    norm_num [plot_regression_models_keys, posXCount, posYCount, noPosYRows,
      List.filter]
  rw [hkeys]
  refine ⟨by norm_num [noPosYRows], by decide, by decide, by decide⟩

/-- C3 amended: on every dataset with no positive y-value the `models`
mapping omits `"Exponential"` and `"Log-Linear"` while still containing
`"Linear"`, `"Poly2"` (the quadratic fit) and `"Poly3"` (the cubic fit);
`"Logarithmic"` is unaffected by the sign of y — it is present exactly when
at least 2 rows have positive x. -/
theorem C3_no_positive_y (expConverges : Bool) (rows : List (ℚ × ℚ))
    (h : posYCount rows = 0) :
    "Exponential" ∉ plot_regression_models_keys expConverges rows ∧
    "Log-Linear" ∉ plot_regression_models_keys expConverges rows ∧
    "Linear" ∈ plot_regression_models_keys expConverges rows ∧
    "Poly2" ∈ plot_regression_models_keys expConverges rows ∧
    "Poly3" ∈ plot_regression_models_keys expConverges rows ∧
    ("Logarithmic" ∈ plot_regression_models_keys expConverges rows ↔
      2 ≤ posXCount rows) := by
  have h2 : ¬ (2 ≤ posYCount rows ∧ expConverges = true) := by
    rintro ⟨h2, -⟩; omega
  have h1 : ¬ (1 ≤ posYCount rows) := by omega
  refine ⟨?_, ?_, ?_, ?_, ?_, ?_⟩ <;>
    · simp only [plot_regression_models_keys, if_neg h2, if_neg h1]
      by_cases hx : 2 ≤ posXCount rows <;>
        simp [hx]

/-- C3 witness: the amended statement instantiated on the 4-row all-negative-y
dataset, where the logarithmic fit is present. -/
theorem C3_no_positive_y_witness :
    posYCount noPosYRows = 0 ∧
    ("Logarithmic" ∈ plot_regression_models_keys true noPosYRows ↔
      2 ≤ posXCount noPosYRows) :=
  ⟨by norm_num [posYCount, noPosYRows, List.filter],
   (C3_no_positive_y true noPosYRows
      (by norm_num [posYCount, noPosYRows, List.filter])).2.2.2.2.2⟩

theorem formatFixed_four_one : formatFixed 4 1 = "1.0000" := by
  have h1 : (|(1 : ℚ)| * 10 ^ 4) = ((10000 : ℤ) : ℚ) := by norm_num
  have h2 : roundHalfEven (|(1 : ℚ)| * 10 ^ 4) = 10000 := by
    rw [roundHalfEven, h1, Int.floor_intCast]
    norm_num
  have h3 : ¬ (1 : ℚ) < 0 := by norm_num
  simp only [formatFixed, h2, h3, false_and, if_false]
  decide

theorem append_merge_p (r : String) :
    (" (p = " : String) ++ ("1.0000" ++ r) = " (" ++ ("p = 1.0000" ++ r) := by
  rw [← String.append_assoc, ← String.append_assoc]
  congr 1

/-- C10: when the fitted model's parameter index does not contain the term
`'Dose_numeric'`, `generate_conclusion` defaults the coefficient to 0 and the
p-value to 1, so the produced sentence states that the response tends to
"remain constant" and that the effect was "not significant" with
`p = 1.0000`. -/
theorem C10_conclusion_defaults (model : OlsModel)
    (response_var cat_factor : String)
    (hp : model.params.lookup "Dose_numeric" = none)
    (hq : model.pvalues.lookup "Dose_numeric" = none) :
    containsStr (generate_conclusion model response_var cat_factor)
      "remain constant" ∧
    containsStr (generate_conclusion model response_var cat_factor)
      "not significant" ∧
    containsStr (generate_conclusion model response_var cat_factor)
      "p = 1.0000" := by
  have hcoef : seriesGet model.params "Dose_numeric" 0 = 0 := by
    simp [seriesGet, hp]
  have hpv : seriesGet model.pvalues "Dose_numeric" 1 = 1 := by
    simp [seriesGet, hq]
  have hlt0 : ¬ (0 : ℚ) < 0 := lt_irrefl 0
  have hlt1 : ¬ (1 : ℚ) < 1 / 20 := by norm_num
  refine ⟨?_, ?_, ?_⟩
  · refine ⟨"Based on an R² of " ++ formatFixed 2 model.rsquared ++
      ", there is a " ++
      (if model.rsquared < 1 / 5 then "weak"
        else if model.rsquared < 1 / 2 then "moderate" else "strong") ++
      " association between '" ++ response_var ++
      "' and the dose. The coefficient suggests the response tends to ", ?_, ?_⟩
    · exact " as the dose increases. This effect was " ++ "not significant" ++
        " (p = " ++ formatFixed 4 1 ++ ")." ++ String.join
          ((model.params.filter (fun kv =>
              containsSub "Dose_numeric:C(" kv.1 &&
                decide ((model.pvalues.lookup kv.1).getD 1 < 1 / 20))).map
            (fun kv => interactionSentence kv.1))
    · simp only [generate_conclusion, hcoef, hpv, hlt0, if_false, hlt1,
        String.append_assoc]
  · refine ⟨"Based on an R² of " ++ formatFixed 2 model.rsquared ++
      ", there is a " ++
      (if model.rsquared < 1 / 5 then "weak"
        else if model.rsquared < 1 / 2 then "moderate" else "strong") ++
      " association between '" ++ response_var ++
      "' and the dose. The coefficient suggests the response tends to " ++
      "remain constant" ++ " as the dose increases. This effect was ", ?_, ?_⟩
    · exact " (p = " ++ formatFixed 4 1 ++ ")." ++ String.join
        ((model.params.filter (fun kv =>
            containsSub "Dose_numeric:C(" kv.1 &&
              decide ((model.pvalues.lookup kv.1).getD 1 < 1 / 20))).map
          (fun kv => interactionSentence kv.1))
    · simp only [generate_conclusion, hcoef, hpv, hlt0, if_false, hlt1,
        String.append_assoc]
  · refine ⟨"Based on an R² of " ++ formatFixed 2 model.rsquared ++
      ", there is a " ++
      (if model.rsquared < 1 / 5 then "weak"
        else if model.rsquared < 1 / 2 then "moderate" else "strong") ++
      " association between '" ++ response_var ++
      "' and the dose. The coefficient suggests the response tends to " ++
      "remain constant" ++ " as the dose increases. This effect was " ++
      "not significant" ++ " (", ?_, ?_⟩
    · exact ")." ++ String.join
        ((model.params.filter (fun kv =>
            containsSub "Dose_numeric:C(" kv.1 &&
              decide ((model.pvalues.lookup kv.1).getD 1 < 1 / 20))).map
          (fun kv => interactionSentence kv.1))
    · simp only [generate_conclusion, hcoef, hpv, hlt0, if_false, hlt1,
        formatFixed_four_one, String.append_assoc, append_merge_p]

/-- A fitted model with no `'Dose_numeric'` term at all. -/
def noDoseModel : OlsModel :=
  ⟨1 / 10, [("Intercept", 2)], [("Intercept", 1 / 100)]⟩

/-- C10 witness: the default-branch statement instantiated on a concrete
model lacking the `'Dose_numeric'` term. -/
theorem C10_conclusion_defaults_witness :
    noDoseModel.params.lookup "Dose_numeric" = none ∧
    containsStr (generate_conclusion noDoseModel "NumROS" "NP")
      "p = 1.0000" :=
  ⟨by simp [noDoseModel],
   (C10_conclusion_defaults noDoseModel "NumROS" "NP"
      (by simp [noDoseModel]) (by simp [noDoseModel])).2.2⟩

/-- A configuration that passes every input guard and whose ANOVA fit
raises. -/
def anovaFailCfg : RunConfig :=
  { dfEmpty := false
    response := "NumROS"
    factors := ["Dose"]
    useDerived := false
    useOutliers := false
    outliersRemoved := 0
    rowsAfterPrep := 10
    normMethod := "None"
    anovaRaises := true
    tukeyPhaseRaises := fun _ => false
    gridRaises := false
    regressionRaises := false }

/-- C1 counterexample: on a run whose ANOVA fit raises (all guards passed,
every other phase healthy), `run_analysis` logs the failure and `return`s:
no Tukey file, no plot grid, no regression/conclusion artifact and no
`filtered_data.csv` is produced — the later phases do not run. -/
theorem C1_counterexample :
    (run_analysis anovaFailCfg).log = [LogEntry.anovaFailed] ∧
    (run_analysis anovaFailCfg).tukeyCsvs = [] ∧
    (run_analysis anovaFailCfg).wroteGridPng = false ∧
    (run_analysis anovaFailCfg).wroteRegressionTxt = false ∧
    (run_analysis anovaFailCfg).wroteConclusionTxt = false ∧
    (run_analysis anovaFailCfg).wroteModelsPng = false ∧
    (run_analysis anovaFailCfg).wroteFilteredCsv = false := by
  refine ⟨?_, ?_, ?_, ?_, ?_, ?_, ?_⟩ <;> rfl

/-- C1 amended: when the ANOVA fit raises, the failure is logged and
`run_analysis` returns immediately, so the per-factor Tukey tests, the plot
grid, the interaction regression with conclusion, and the filtered-dataset
write-out are all skipped; no exception propagates (the embedded entry point
is total), but the ANOVA failure aborts the entire remainder of the run
rather than only the ANOVA phase. -/
theorem C1_anova_failure_aborts_rest (cfg : RunConfig)
    (h0 : cfg.dfEmpty = false) (h1 : cfg.response ≠ "")
    (h2 : cfg.factors ≠ []) (h3 : 5 ≤ cfg.rowsAfterPrep)
    (h4 : cfg.anovaRaises = true) :
    LogEntry.anovaFailed ∈ (run_analysis cfg).log ∧
    (run_analysis cfg).wroteAnovaCsv = false ∧
    (run_analysis cfg).tukeyCsvs = [] ∧
    (run_analysis cfg).wroteGridPng = false ∧
    (run_analysis cfg).wroteRegressionTxt = false ∧
    (run_analysis cfg).wroteConclusionTxt = false ∧
    (run_analysis cfg).wroteModelsPng = false ∧
    (run_analysis cfg).wroteFilteredCsv = false := by
  have h5 : ¬ (cfg.response = "" ∨ cfg.factors = []) := by
    rintro (h | h) <;> [exact h1 h; exact h2 h]
  have h6 : ¬ cfg.rowsAfterPrep < 5 := by omega
  simp only [run_analysis, h0, if_false, h5, h6, h4, if_true, Bool.false_eq_true]
  simp

/-- C1 witness: the amended statement instantiated on the concrete failing
configuration. -/
theorem C1_anova_failure_aborts_rest_witness :
    anovaFailCfg.anovaRaises = true ∧
    LogEntry.anovaFailed ∈ (run_analysis anovaFailCfg).log :=
  ⟨rfl,
   (C1_anova_failure_aborts_rest anovaFailCfg rfl (by decide) (by decide)
      (by decide) rfl).1⟩

end StatLysis
